import Mathlib

/-!
Shallow embedding of `src/io-9class-annual-exports.py`, a linear pipeline
that loads an AOI bounding box, searches a STAC catalog, validates that all
returned items share one CRS, stacks the items into a time-sorted raster
cube, and exports each time slice clipped to the AOI.

External geospatial libraries (geopandas, stackstac, rioxarray) are modeled
at the level of their documented behavior: files are a map from path to an
optional parsed vector layer, rasters are finite lists of coordinate/value
pairs, and geometry rasterization (which pixels a polygon touches) is data
carried by the geometry. Python exceptions are modeled with `Except`.
-/

/-- Python exception kinds that the script can raise. -/
inductive PyError where
  | indexError
  | assertionError
  | attributeError
  | valueError
  | ioError
  | noDataInBounds
deriving DecidableEq, Repr

/-- A timezone-aware timestamp, as parsed by `pd.to_datetime` from the
item property `start_datetime`: a UTC instant in minutes since the Unix
epoch plus the original UTC offset of the string. -/
structure Timestamp where
  utcMinutes : Int
  tzOffsetMinutes : Int
deriving DecidableEq, Repr

/-- Model of `DatetimeIndex.tz_convert(None)`: dropping the timezone yields
the naive UTC instant. -/
def Timestamp.tzConvertNone (t : Timestamp) : Int :=
  t.utcMinutes

/-- The STAC item properties the script reads: `properties.get("proj:code")`
(absent keys give `None`, hence `Option`) and `properties["start_datetime"]`. -/
structure ItemProperties where
  projCode : Option String
  startDatetime : Timestamp
deriving DecidableEq, Repr

/-- A STAC catalog item. `data` is the int64 pixel layer that
`stackstac.stack` builds from the item assets (coordinates paired with
values; `dtype="int64"`, `fill_value=0`, `rescale=False` mean missing source
pixels are already the integer 0, never NaN). -/
structure Item where
  properties : ItemProperties
  data : List ((Nat × Nat) × Int)
deriving DecidableEq, Repr

/-- One vector feature of the AOI file: its vertex coordinates (used for
bounds) and, as the abstraction of rasterization onto the raster grid, the
set of pixel cells the geometry touches under `all_touched=True`. -/
structure GeoFeature where
  coords : List (ℚ × ℚ)
  cells : List (Nat × Nat)
deriving DecidableEq, Repr

/-- Model of a parsed vector layer (`geopandas.GeoDataFrame`). -/
structure GeoDataFrame where
  features : List GeoFeature
deriving DecidableEq, Repr

/-- A file system: maps a path to the parsed vector layer, or `none` when
the file is missing or unreadable (`gpd.read_file` raises). -/
def FileSystem : Type := String → Option GeoDataFrame

/-- One time slice of the raster cube: its (naive) time coordinate and its
int64 pixel data. -/
structure Slice where
  time : Int
  data : List ((Nat × Nat) × Int)
deriving DecidableEq, Repr

/-- The raster cube built by `stack_items`: the stack-wide EPSG integer and
the time-ordered slices. -/
structure Stack where
  epsg : Int
  slices : List Slice
deriving DecidableEq, Repr

/-- An exported GeoTIFF: path, uint8 pixel data (integer, so no NaN marker
can be represented), and the nodata value recorded in the metadata. -/
structure OutFile where
  path : String
  data : List ((Nat × Nat) × Nat)
  nodata : Option Nat
deriving DecidableEq, Repr

/-- All vertex coordinates of a layer, in feature order. -/
def allCoords (g : GeoDataFrame) : List (ℚ × ℚ) :=
  g.features.foldr (fun f acc => f.coords ++ acc) []

/-- Model of `GeoDataFrame.total_bounds`: the componentwise min/max over
all coordinates, `[minx, miny, maxx, maxy]`. On a layer with no
coordinates, numpy nan-reductions over an empty array return NaN, modeled
as `none` (an all-NaN bounds array), not an exception. -/
def total_bounds (g : GeoDataFrame) : Option (ℚ × ℚ × ℚ × ℚ) :=
  match allCoords g with
  | [] => none
  | c :: cs =>
    some (cs.foldl (fun a p => min a p.1) c.1,
          cs.foldl (fun a p => min a p.2) c.2,
          cs.foldl (fun a p => max a p.1) c.1,
          cs.foldl (fun a p => max a p.2) c.2)

/-- Embedding of `get_bbox` (src lines 13-22): read the geojson with
`gpd.read_file` (raises on a missing or unreadable file) and return
`total_bounds`. -/
def get_bbox (fs : FileSystem) (path : String) : Except PyError (Option (ℚ × ℚ × ℚ × ℚ)) :=
  match fs path with
  | none => Except.error PyError.ioError
  | some aoi_file => Except.ok (total_bounds aoi_file)

/-- Embedding of `check_item_crs` (src lines 25-35): read the first item
(`items[0]` raises IndexError on an empty collection), then assert every
item carries the same `proj:code`; AssertionError on any mismatch. -/
def check_item_crs (items : List Item) : Except PyError (Option String) :=
  match items with
  | [] => Except.error PyError.indexError
  | first :: _ =>
    let epsg_code := first.properties.projCode
    if items.all (fun item => item.properties.projCode == epsg_code) then
      Except.ok epsg_code
    else
      Except.error PyError.assertionError

/-- Embedding of `search_catalog` (src lines 38-45): the remote catalog is
an oracle from collection name and bbox to the returned item collection
(order as received). -/
def search_catalog (catalog : String → Option (ℚ × ℚ × ℚ × ℚ) → List Item)
    (collection : String) (bbox : Option (ℚ × ℚ × ℚ × ℚ)) : List Item :=
  catalog collection bbox

/-- Ordering of slices by their time coordinate, used by `.sortby("time")`. -/
def sliceLE (a b : Slice) : Prop := a.time ≤ b.time

instance : DecidableRel sliceLE := fun a b => inferInstanceAs (Decidable (a.time ≤ b.time))

instance : IsTotal Slice sliceLE := ⟨fun a b => Int.le_total a.time b.time⟩

instance : IsTrans Slice sliceLE := ⟨fun _ _ _ h1 h2 => le_trans h1 h2⟩

/-- The decimal value of a digit character, if it is one. -/
def decDigit? (c : Char) : Option Nat :=
  if 48 ≤ c.toNat ∧ c.toNat ≤ 57 then some (c.toNat - 48) else none

/-- Parse a nonempty all-digit character list as a natural number. -/
def parseNatDigits? (cs : List Char) : Option Nat :=
  match cs with
  | [] => none
  | _ =>
    cs.foldl
      (fun acc c =>
        match acc, decDigit? c with
        | some n, some d => some (n * 10 + d)
        | _, _ => none)
      (some 0)

/-- Model of the Python `int(...)` constructor on a string: an optional
sign followed by decimal digits; anything else raises ValueError. -/
def pyInt? (s : String) : Option Int :=
  match s.data with
  | '-' :: rest => (parseNatDigits? rest).map (fun n => -(n : Int))
  | cs => (parseNatDigits? cs).map (fun n => (n : Int))

/-- Model of `epsg_code.split(":")[-1]`: everything after the last colon
(the whole string when there is no colon). -/
def afterLastColon (s : String) : String :=
  String.mk ((s.data.reverse.takeWhile (fun c => c ≠ ':')).reverse)

/-- Model of `int(epsg_code.split(":")[-1])`. -/
def epsgIntOfCode (epsg_code : String) : Option Int :=
  pyInt? (afterLastColon epsg_code)

/-- Embedding of `stack_items` (src lines 47-72). `epsg_code` is the value
returned by the validator; `None.split` raises AttributeError and a
non-numeric tail makes `int(...)` raise ValueError. The layers are given
time coordinates from each item `start_datetime` made timezone-naive, then
sorted ascending by time (`.sortby` is a stable ascending sort, modeled
with a stable insertion sort). The bbox only windows the spatial extent
(`bounds_latlon`) and does not affect the modeled per-layer data. -/
def stack_items (items : List Item) (epsg_code : Option String)
    (bbox : Option (ℚ × ℚ × ℚ × ℚ)) : Except PyError Stack :=
  match epsg_code with
  | none => Except.error PyError.attributeError
  | some code =>
    match epsgIntOfCode code with
    | none => Except.error PyError.valueError
    | some epsg_int =>
      let layers := items.map (fun item =>
        { time := item.properties.startDatetime.tzConvertNone,
          data := item.data : Slice })
      Except.ok { epsg := epsg_int, slices := List.insertionSort sliceLE layers }

/-- The time axis of the cube. -/
def timeAxis (st : Stack) : List Int :=
  st.slices.map Slice.time

/-- The naive time coordinate an item contributes to the axis. -/
def naiveTime (item : Item) : Int :=
  item.properties.startDatetime.tzConvertNone

/-- Whether the (reprojected) geometry touches a pixel cell
(`all_touched=True` rasterization). -/
def GeoFeature.touches (g : GeoFeature) (rc : Nat × Nat) : Bool :=
  g.cells.any (fun c => c = rc)

/-- Civil date (year, month, day) from a count of days since 1970-01-01
(the standard days-to-civil-calendar algorithm, as used by datetime
formatting). -/
def civilFromDays (z0 : Int) : Int × Nat × Nat :=
  let z := z0 + 719468
  let era : Int := z / 146097
  let doe : Nat := (z - era * 146097).toNat
  let yoe : Nat := (doe - doe / 1460 + doe / 36524 - doe / 146096) / 365
  let y : Int := (yoe : Int) + era * 400
  let doy : Nat := doe - (365 * yoe + yoe / 4 - yoe / 100)
  let mp : Nat := (5 * doy + 2) / 153
  let d : Nat := doy - (153 * mp + 2) / 5 + 1
  let m : Nat := if mp < 10 then mp + 3 else mp - 9
  (if m ≤ 2 then y + 1 else y, m, d)

/-- The civil date of a naive time coordinate given in minutes. -/
def dateOfTime (t : Int) : Int × Nat × Nat :=
  civilFromDays (t / 1440)

/-- Left-pad a decimal numeral with zeros to the given width. -/
def padZeros (w : Nat) (n : Nat) : String :=
  let s := Nat.repr n
  if s.length < w then String.mk (List.replicate (w - s.length) '0') ++ s else s

/-- Model of `pd.to_datetime(time_val).strftime("%Y%m%d")` for the CE dates
this catalog serves (years 1 to 9999). -/
def strftimeYYYYMMDD (t : Int) : String :=
  match dateOfTime t with
  | (y, m, d) => padZeros 4 y.toNat ++ padZeros 2 m ++ padZeros 2 d

/-- Whether a string starts with the path separator. -/
def strStartsWithSlash (s : String) : Bool :=
  match s.data with
  | [] => false
  | c :: _ => c = '/'

/-- Whether a string ends with the path separator. -/
def strEndsWithSlash (s : String) : Bool :=
  match s.data.getLast? with
  | some c => c = '/'
  | none => false

/-- Model of posix `os.path.join` for the two-argument uses in the script:
an absolute second component replaces the first; otherwise the components
are joined with a single separator. -/
def osPathJoin (a b : String) : String :=
  if strStartsWithSlash b then b
  else if a = "" then b
  else if strEndsWithSlash a then a ++ b
  else a ++ "/" ++ b

/-- Model of the numpy int64-to-uint8 cast performed by
`rio.to_raster(..., dtype="uint8")`: values wrap modulo 256. -/
def uint8OfInt (v : Int) : Nat :=
  (v % 256).toNat

/-- The body of the per-slice loop of `export_items_from_stack`
(src lines 76-107) for the slice at zero-based index `i`:
re-read the AOI file (IOError if missing/unreadable), reproject its
features to the raster CRS (`reproject` models `GeoDataFrame.to_crs`),
take the first geometry only (`geometry.iloc[0]` raises IndexError on an
empty layer), clip with `all_touched=True` (pixels the geometry does not
touch become missing; rioxarray raises NoDataInBounds when no pixel is
touched), fill missing pixels with 0 (`fillna(0)`), record nodata 0 in the
metadata (`write_nodata(0, inplace=True)`), derive the output filename
from the slice date and index, and write the uint8 GeoTIFF. -/
def processSlice (reproject : GeoFeature → Int → GeoFeature) (fs : FileSystem)
    (aoi_path output_dir : String) (epsg : Int) (i : Nat) (sl : Slice) :
    Except PyError OutFile :=
  match fs aoi_path with
  | none => Except.error PyError.ioError
  | some aoi_file =>
    match aoi_file.features.map (fun f => reproject f epsg) with
    | [] => Except.error PyError.indexError
    | g :: _ =>
      if sl.data.any (fun p => g.touches p.1) then
        let clipped : List ((Nat × Nat) × Option Int) :=
          sl.data.map (fun p => (p.1, if g.touches p.1 then some p.2 else none))
        let filled : List ((Nat × Nat) × Int) :=
          clipped.map (fun p => (p.1, p.2.getD 0))
        let date_str := strftimeYYYYMMDD sl.time
        let output_file :=
          osPathJoin output_dir ("io_land_cover_" ++ date_str ++ "_" ++ Nat.repr i ++ ".tif")
        Except.ok { path := output_file,
                    data := filled.map (fun p => (p.1, uint8OfInt p.2)),
                    nodata := some 0 }
      else
        Except.error PyError.noDataInBounds

/-- The enumerated loop of `export_items_from_stack`: process the slices in
order starting at index `i`; on the first uncaught exception the loop (and
the whole run) stops, returning the files already written before the
failure together with the exception. -/
def exportGo (reproject : GeoFeature → Int → GeoFeature) (fs : FileSystem)
    (aoi_path output_dir : String) (epsg : Int) :
    Nat → List Slice → List OutFile × Option PyError
  | _, [] => ([], none)
  | i, sl :: rest =>
    match processSlice reproject fs aoi_path output_dir epsg i sl with
    | Except.error e => ([], some e)
    | Except.ok f =>
      let r := exportGo reproject fs aoi_path output_dir epsg (i + 1) rest
      (f :: r.1, r.2)

/-- Embedding of `export_items_from_stack` (src lines 74-109): loop over
`enumerate(stack.time.values)` and write one GeoTIFF per time slice. The
result pairs the files written (in loop order) with the exception that
aborted the run, if any. -/
def export_items_from_stack (reproject : GeoFeature → Int → GeoFeature)
    (stack : Stack) (output_dir aoi_path : String) (fs : FileSystem) :
    List OutFile × Option PyError :=
  exportGo reproject fs aoi_path output_dir stack.epsg 0 stack.slices

/-- The pipeline stages, in the order `export_mpc_data` invokes them. -/
inductive Stage where
  | aoiLoader
  | searchClient
  | crsValidator
  | stackBuilder
  | exporter
deriving DecidableEq, Repr

/-- Embedding of `export_mpc_data` (src lines 113-121): the five-step
pipeline. The first component records which stages were invoked, in
order; the second is the overall outcome (an uncaught exception terminates
the process). `catalog` is the remote-search oracle and `collection` the
collection identifier. -/
def export_mpc_data (reproject : GeoFeature → Int → GeoFeature) (fs : FileSystem)
    (catalog : String → Option (ℚ × ℚ × ℚ × ℚ) → List Item)
    (collection : String) (aoi_path output_dir : String) :
    List Stage × Except PyError (List OutFile) :=
  match get_bbox fs aoi_path with
  | Except.error e => ([Stage.aoiLoader], Except.error e)
  | Except.ok bbox =>
    let items := search_catalog catalog collection bbox
    match check_item_crs items with
    | Except.error e =>
      ([Stage.aoiLoader, Stage.searchClient, Stage.crsValidator], Except.error e)
    | Except.ok crs =>
      match stack_items items crs bbox with
      | Except.error e =>
        ([Stage.aoiLoader, Stage.searchClient, Stage.crsValidator, Stage.stackBuilder],
         Except.error e)
      | Except.ok stack =>
        match export_items_from_stack reproject stack output_dir aoi_path fs with
        | (files, some e) =>
          ([Stage.aoiLoader, Stage.searchClient, Stage.crsValidator, Stage.stackBuilder,
            Stage.exporter], Except.error e)
        | (files, none) =>
          ([Stage.aoiLoader, Stage.searchClient, Stage.crsValidator, Stage.stackBuilder,
            Stage.exporter], Except.ok files)

/-! ## CRS validator lemmas -/

lemma check_item_crs_mismatch (items : List Item) (it1 it2 : Item)
    (h1 : it1 ∈ items) (h2 : it2 ∈ items)
    (hne : it1.properties.projCode ≠ it2.properties.projCode) :
    check_item_crs items = Except.error PyError.assertionError := by
  cases items with
  | nil => cases h1
  | cons first rest =>
    unfold check_item_crs
    by_cases hall :
        ((first :: rest).all (fun item => item.properties.projCode == first.properties.projCode))
    · exfalso
      have e1 := List.all_eq_true.mp hall it1 h1
      have e2 := List.all_eq_true.mp hall it2 h2
      rw [beq_iff_eq] at e1 e2
      exact hne (e1.trans e2.symm)
    · simp only [Bool.not_eq_true] at hall
      simp [hall]

lemma check_item_crs_all_same (first : Item) (rest : List Item) (c : Option String)
    (hall : ∀ item ∈ first :: rest, item.properties.projCode = c) :
    check_item_crs (first :: rest) = Except.ok c := by
  have hfst : first.properties.projCode = c := hall first (List.mem_cons_self _ _)
  have hb : (first :: rest).all
      (fun item => item.properties.projCode == first.properties.projCode) = true := by
    rw [List.all_eq_true]
    intro it hit
    rw [beq_iff_eq, hall it hit, hfst]
  have hdef : check_item_crs (first :: rest) =
      if ((first :: rest).all fun item => item.properties.projCode == first.properties.projCode)
      then Except.ok first.properties.projCode
      else Except.error PyError.assertionError := rfl
  rw [hdef, hb]
  simp [hfst]

/-- C9: on an empty item collection the CRS validator fails with an
out-of-bounds access on the first item (`items[0]` raises IndexError)
rather than returning a CRS identifier: the read of the first item is
unguarded against emptiness. -/
theorem crs_validator_empty_C9 :
    check_item_crs ([] : List Item) = Except.error PyError.indexError := rfl

/-- C1: if some two items returned by the search carry differing CRS
identifiers, the pipeline terminates with an assertion failure and the
Stack Builder stage is never invoked; and on any nonempty item collection
in which every item carries the identical CRS identifier, the validator
returns that shared identifier. -/
theorem crs_validator_C1
    (reproject : GeoFeature → Int → GeoFeature) (fs : FileSystem)
    (catalog : String → Option (ℚ × ℚ × ℚ × ℚ) → List Item)
    (collection aoi_path output_dir : String)
    (bbox : Option (ℚ × ℚ × ℚ × ℚ)) (it1 it2 : Item)
    (first : Item) (grest : List Item) (c : Option String)
    (hbb : get_bbox fs aoi_path = Except.ok bbox)
    (h1 : it1 ∈ search_catalog catalog collection bbox)
    (h2 : it2 ∈ search_catalog catalog collection bbox)
    (hne : it1.properties.projCode ≠ it2.properties.projCode)
    (hsame : ∀ item ∈ first :: grest, item.properties.projCode = c) :
    (export_mpc_data reproject fs catalog collection aoi_path output_dir).2
        = Except.error PyError.assertionError ∧
    Stage.stackBuilder ∉ (export_mpc_data reproject fs catalog collection aoi_path output_dir).1 ∧
    check_item_crs (first :: grest) = Except.ok c := by
  have hchk := check_item_crs_mismatch (search_catalog catalog collection bbox) it1 it2 h1 h2 hne
  have hrun : export_mpc_data reproject fs catalog collection aoi_path output_dir =
      ([Stage.aoiLoader, Stage.searchClient, Stage.crsValidator],
        Except.error PyError.assertionError) := by
    unfold export_mpc_data
    rw [hbb]
    simp [hchk]
  refine ⟨?_, ?_, check_item_crs_all_same first grest c hsame⟩
  · rw [hrun]
  · rw [hrun]
    decide

/-! ## Concrete inputs for witnesses and counterexamples -/

def featW : GeoFeature := { coords := [(1, 2), (3, 4)], cells := [(0, 0)] }

def gdfW : GeoDataFrame := { features := [featW] }

def fsW : FileSystem := fun p => if p = "aoi.geojson" then some gdfW else none

def tsW : Timestamp := { utcMinutes := 27061920, tzOffsetMinutes := 0 }

def itemA : Item :=
  { properties := { projCode := some "EPSG:32633", startDatetime := tsW }, data := [] }

def itemB : Item :=
  { properties := { projCode := some "EPSG:4326", startDatetime := tsW }, data := [] }

def catalogW : String → Option (ℚ × ℚ × ℚ × ℚ) → List Item := fun _ _ => [itemA, itemB]

theorem crs_validator_C1_witness :
    (export_mpc_data (fun g _ => g) fsW catalogW "io-lulc-annual-v02" "aoi.geojson" "out").2
        = Except.error PyError.assertionError ∧
    Stage.stackBuilder ∉
      (export_mpc_data (fun g _ => g) fsW catalogW "io-lulc-annual-v02" "aoi.geojson" "out").1 ∧
    check_item_crs [itemA] = Except.ok (some "EPSG:32633") :=
  crs_validator_C1 (fun g _ => g) fsW catalogW "io-lulc-annual-v02" "aoi.geojson" "out"
    (some (1, 2, 3, 4)) itemA itemB itemA [] (some "EPSG:32633")
    rfl
    (by simp [search_catalog, catalogW])
    (by simp [search_catalog, catalogW])
    (by simp [itemA, itemB])
    (by intro item h; rw [List.mem_singleton] at h; subst h; rfl)

/-! ## AOI loader claims -/

def gdfNoFeatures : GeoDataFrame := { features := [] }

def fsNoFeatures : FileSystem := fun p => if p = "aoi.geojson" then some gdfNoFeatures else none

/-- C5 counterexample: a readable AOI file containing zero features does
not make the AOI Loader fail; `total_bounds` of an empty layer is the
all-NaN bounds array (modeled `none`), returned inside a normal result. -/
theorem aoi_loader_C5_counterexample :
    gdfNoFeatures.features = [] ∧
    get_bbox fsNoFeatures "aoi.geojson" = Except.ok none :=
  ⟨rfl, rfl⟩

/-- C5 (amended): the AOI Loader fails for a missing or unreadable file;
for a readable file whose features carry at least one coordinate it
returns the bounding box (minx, miny, maxx, maxy) in the native CRS; but
for a readable file with zero features it does not fail and instead
returns the all-NaN bounds array of an empty layer. -/
theorem aoi_loader_C5 (fs1 fs2 fs3 : FileSystem) (path : String)
    (gdf0 gdfv : GeoDataFrame) (c0 : ℚ × ℚ) (crest : List (ℚ × ℚ))
    (h1 : fs1 path = none)
    (h2 : fs2 path = some gdf0) (h2e : gdf0.features = [])
    (h3 : fs3 path = some gdfv) (h3c : allCoords gdfv = c0 :: crest) :
    get_bbox fs1 path = Except.error PyError.ioError ∧
    get_bbox fs2 path = Except.ok none ∧
    get_bbox fs3 path = Except.ok (some
      (crest.foldl (fun a p => min a p.1) c0.1,
       crest.foldl (fun a p => min a p.2) c0.2,
       crest.foldl (fun a p => max a p.1) c0.1,
       crest.foldl (fun a p => max a p.2) c0.2)) := by
  have hread2 : get_bbox fs2 path = Except.ok (total_bounds gdf0) := by
    unfold get_bbox
    rw [h2]
  have hread3 : get_bbox fs3 path = Except.ok (total_bounds gdfv) := by
    unfold get_bbox
    rw [h3]
  have hac : allCoords gdf0 = [] := by
    unfold allCoords
    rw [h2e]
    rfl
  have htb0 : total_bounds gdf0 = none := by
    unfold total_bounds
    rw [hac]
  have htbv : total_bounds gdfv = some
      (crest.foldl (fun a p => min a p.1) c0.1,
       crest.foldl (fun a p => min a p.2) c0.2,
       crest.foldl (fun a p => max a p.1) c0.1,
       crest.foldl (fun a p => max a p.2) c0.2) := by
    unfold total_bounds
    rw [h3c]
  refine ⟨?_, ?_, ?_⟩
  · unfold get_bbox
    rw [h1]
  · rw [hread2, htb0]
  · rw [hread3, htbv]

def fsMissing : FileSystem := fun _ => none

def gdfTwo : GeoDataFrame := { features := [{ coords := [(1, 4), (3, 2)], cells := [] }] }

def fsTwo : FileSystem := fun p => if p = "aoi.geojson" then some gdfTwo else none

theorem aoi_loader_C5_witness :
    get_bbox fsMissing "aoi.geojson" = Except.error PyError.ioError ∧
    get_bbox fsNoFeatures "aoi.geojson" = Except.ok none ∧
    get_bbox fsTwo "aoi.geojson" = Except.ok (some (1, 2, 3, 4)) := by
  obtain ⟨a, b, c⟩ := aoi_loader_C5 fsMissing fsNoFeatures fsTwo "aoi.geojson"
    gdfNoFeatures gdfTwo (1, 4) [(3, 2)] rfl rfl rfl rfl rfl
  refine ⟨a, b, ?_⟩
  rw [c]
  rfl

lemma foldl_min_le_init (sel : ℚ × ℚ → ℚ) :
    ∀ (l : List (ℚ × ℚ)) (x : ℚ), l.foldl (fun a p => min a (sel p)) x ≤ x := by
  intro l
  induction l with
  | nil => intro x; simp
  | cons p t ih =>
    intro x
    exact le_trans (ih (min x (sel p))) (min_le_left _ _)

lemma init_le_foldl_max (sel : ℚ × ℚ → ℚ) :
    ∀ (l : List (ℚ × ℚ)) (x : ℚ), x ≤ l.foldl (fun a p => max a (sel p)) x := by
  intro l
  induction l with
  | nil => intro x; simp
  | cons p t ih =>
    intro x
    exact le_trans (le_max_left _ _) (ih (max x (sel p)))

/-- C8: whenever the AOI Loader returns a bounding box for a valid AOI
file, the box satisfies minx ≤ maxx and miny ≤ maxy (both minima are folds
below the first coordinate and both maxima are folds above it). -/
theorem aoi_loader_bbox_order_C8 (fs : FileSystem) (path : String)
    (mnx mny mxx mxy : ℚ)
    (hb : get_bbox fs path = Except.ok (some (mnx, mny, mxx, mxy))) :
    mnx ≤ mxx ∧ mny ≤ mxy := by
  unfold get_bbox at hb
  cases hfs : fs path with
  | none =>
    rw [hfs] at hb
    exact absurd hb (by simp)
  | some gdf =>
    rw [hfs] at hb
    have htb : total_bounds gdf = some (mnx, mny, mxx, mxy) := by
      injection hb
    unfold total_bounds at htb
    cases hac : allCoords gdf with
    | nil =>
      rw [hac] at htb
      exact absurd htb (by simp)
    | cons c cs =>
      rw [hac] at htb
      injection htb with htb2
      obtain ⟨e1, e2, e3, e4⟩ :
          mnx = cs.foldl (fun a p => min a p.1) c.1 ∧
          mny = cs.foldl (fun a p => min a p.2) c.2 ∧
          mxx = cs.foldl (fun a p => max a p.1) c.1 ∧
          mxy = cs.foldl (fun a p => max a p.2) c.2 := by
        simpa [Prod.ext_iff] using htb2.symm
      rw [e1, e2, e3, e4]
      constructor
      · exact le_trans (foldl_min_le_init Prod.fst cs c.1) (init_le_foldl_max Prod.fst cs c.1)
      · exact le_trans (foldl_min_le_init Prod.snd cs c.2) (init_le_foldl_max Prod.snd cs c.2)

theorem aoi_loader_bbox_order_C8_witness : (1 : ℚ) ≤ 3 ∧ (2 : ℚ) ≤ 4 :=
  aoi_loader_bbox_order_C8 fsTwo "aoi.geojson" 1 2 3 4 rfl

/-! ## Exporter lemmas -/

lemma processSlice_ok_path (reproject : GeoFeature → Int → GeoFeature) (fs : FileSystem)
    (aoi_path output_dir : String) (epsg : Int) (i : Nat) (sl : Slice) (f : OutFile)
    (hok : processSlice reproject fs aoi_path output_dir epsg i sl = Except.ok f) :
    f.path = osPathJoin output_dir
      ("io_land_cover_" ++ strftimeYYYYMMDD sl.time ++ "_" ++ Nat.repr i ++ ".tif") := by
  unfold processSlice at hok
  split at hok
  · exact absurd hok (by simp)
  · split at hok
    · exact absurd hok (by simp)
    · split at hok
      · injection hok with h
        rw [← h]
      · exact absurd hok (by simp)

lemma processSlice_ok_mask (reproject : GeoFeature → Int → GeoFeature) (fs : FileSystem)
    (aoi_path output_dir : String) (epsg : Int) (i : Nat) (sl : Slice) (f : OutFile)
    (gdf : GeoDataFrame) (feat : GeoFeature) (rest : List GeoFeature)
    (hfs : fs aoi_path = some gdf) (hfeat : gdf.features = feat :: rest)
    (hok : processSlice reproject fs aoi_path output_dir epsg i sl = Except.ok f) :
    f.nodata = some 0 ∧
    ∀ rc v, (rc, v) ∈ f.data → (reproject feat epsg).touches rc = false → v = 0 := by
  unfold processSlice at hok
  rw [hfs] at hok
  simp only [hfeat, List.map_cons] at hok
  split at hok
  · injection hok with h
    subst h
    refine ⟨rfl, ?_⟩
    intro rc v hmem hout
    simp only [List.map_map, List.mem_map, Function.comp] at hmem
    obtain ⟨p, hp, hpe⟩ := hmem
    obtain ⟨hrc, hv⟩ := Prod.mk.injEq _ _ _ _ |>.mp hpe
    rw [← hrc] at hout
    rw [hout] at hv
    simpa [uint8OfInt] using hv.symm
  · exact absurd hok (by simp)

lemma exportGo_mem (reproject : GeoFeature → Int → GeoFeature) (fs : FileSystem)
    (aoi_path output_dir : String) (epsg : Int) :
    ∀ (sls : List Slice) (i0 : Nat) (f : OutFile),
      f ∈ (exportGo reproject fs aoi_path output_dir epsg i0 sls).1 →
      ∃ i sl, processSlice reproject fs aoi_path output_dir epsg i sl = Except.ok f := by
  intro sls
  induction sls with
  | nil =>
    intro i0 f hf
    simp [exportGo] at hf
  | cons s rest ih =>
    intro i0 f hf
    unfold exportGo at hf
    cases hps : processSlice reproject fs aoi_path output_dir epsg i0 s with
    | error e =>
      rw [hps] at hf
      simp at hf
    | ok g =>
      rw [hps] at hf
      simp only [List.mem_cons] at hf
      rcases hf with rfl | hmem
      · exact ⟨i0, s, hps⟩
      · exact ih (i0 + 1) f hmem

lemma exportGo_getElem (reproject : GeoFeature → Int → GeoFeature) (fs : FileSystem)
    (aoi_path output_dir : String) (epsg : Int) :
    ∀ (sls : List Slice) (i0 i : Nat) (f : OutFile),
      (exportGo reproject fs aoi_path output_dir epsg i0 sls).1[i]? = some f →
      ∃ sl, sls[i]? = some sl ∧
        processSlice reproject fs aoi_path output_dir epsg (i0 + i) sl = Except.ok f := by
  intro sls
  induction sls with
  | nil =>
    intro i0 i f hf
    simp [exportGo] at hf
  | cons s rest ih =>
    intro i0 i f hf
    unfold exportGo at hf
    cases hps : processSlice reproject fs aoi_path output_dir epsg i0 s with
    | error e =>
      rw [hps] at hf
      simp at hf
    | ok g =>
      rw [hps] at hf
      cases i with
      | zero =>
        simp only [List.getElem?_cons_zero, Option.some.injEq] at hf
        subst hf
        exact ⟨s, by simp, by simpa using hps⟩
      | succ k =>
        simp only [List.getElem?_cons_succ] at hf
        obtain ⟨sl, hsl, hproc⟩ := ih (i0 + 1) k f hf
        refine ⟨sl, by simpa using hsl, ?_⟩
        have : i0 + (k + 1) = i0 + 1 + k := by omega
        rw [this]
        exact hproc

/-! ## Exporter claims -/

/-- C3: every time slice written by the Exporter stores the declared
nodata value 0 (an integer, not a NaN marker: the output pixel type is
uint8) at every retained pixel the clip geometry does not touch, and the
output metadata carries nodata 0. -/
theorem exporter_nodata_C3 (reproject : GeoFeature → Int → GeoFeature) (stack : Stack)
    (output_dir aoi_path : String) (fs : FileSystem)
    (gdf : GeoDataFrame) (feat : GeoFeature) (rest : List GeoFeature)
    (f : OutFile) (rc : Nat × Nat) (v : Nat)
    (hfs : fs aoi_path = some gdf) (hfeat : gdf.features = feat :: rest)
    (hf : f ∈ (export_items_from_stack reproject stack output_dir aoi_path fs).1)
    (hpx : (rc, v) ∈ f.data)
    (hout : (reproject feat stack.epsg).touches rc = false) :
    f.nodata = some 0 ∧ v = 0 := by
  obtain ⟨i, sl, hproc⟩ :=
    exportGo_mem reproject fs aoi_path output_dir stack.epsg stack.slices 0 f hf
  obtain ⟨hnod, hmask⟩ :=
    processSlice_ok_mask reproject fs aoi_path output_dir stack.epsg i sl f gdf feat rest
      hfs hfeat hproc
  exact ⟨hnod, hmask rc v hpx hout⟩

/-- C4: the file written for the time slice at zero-based index i, whose
time value has civil date (y, m, d), is named
io_land_cover_YYYYMMDD_i.tif inside the output directory. -/
theorem exporter_filename_C4 (reproject : GeoFeature → Int → GeoFeature) (stack : Stack)
    (output_dir aoi_path : String) (fs : FileSystem)
    (i : Nat) (sl : Slice) (f : OutFile) (y : Int) (m d : Nat)
    (hsl : stack.slices[i]? = some sl)
    (hf : (export_items_from_stack reproject stack output_dir aoi_path fs).1[i]? = some f)
    (hdate : dateOfTime sl.time = (y, m, d)) :
    f.path = osPathJoin output_dir
      ("io_land_cover_" ++ (padZeros 4 y.toNat ++ padZeros 2 m ++ padZeros 2 d) ++ "_"
        ++ Nat.repr i ++ ".tif") := by
  obtain ⟨sl2, hsl2, hproc⟩ :=
    exportGo_getElem reproject fs aoi_path output_dir stack.epsg stack.slices 0 i f hf
  rw [hsl] at hsl2
  injection hsl2 with hsl2
  subst hsl2
  have hpath := processSlice_ok_path reproject fs aoi_path output_dir stack.epsg (0 + i) sl f hproc
  have hfmt : strftimeYYYYMMDD sl.time = padZeros 4 y.toNat ++ padZeros 2 m ++ padZeros 2 d := by
    unfold strftimeYYYYMMDD
    rw [hdate]
  rw [hpath, hfmt, Nat.zero_add]

def reprojId : GeoFeature → Int → GeoFeature := fun g _ => g

def featClip : GeoFeature := { coords := [(1, 2), (3, 4)], cells := [(0, 0)] }

def gdfClip : GeoDataFrame := { features := [featClip] }

def fsClip : FileSystem := fun p => if p = "aoi.geojson" then some gdfClip else none

def sC0 : Slice := { time := 0, data := [((0, 0), 1)] }

def sC1 : Slice := { time := 1440, data := [((0, 0), 2)] }

def sC2 : Slice := { time := 27061920, data := [((0, 0), 3), ((5, 5), 9)] }

def stackC4 : Stack := { epsg := 32633, slices := [sC0, sC1, sC2] }

def fC2 : OutFile :=
  { path := "out/io_land_cover_20210615_2.tif",
    data := [((0, 0), 3), ((5, 5), 0)],
    nodata := some 0 }

def fO0 : OutFile :=
  { path := "out/io_land_cover_19700101_0.tif",
    data := [((0, 0), 1)],
    nodata := some 0 }

def fO1 : OutFile :=
  { path := "out/io_land_cover_19700102_1.tif",
    data := [((0, 0), 2)],
    nodata := some 0 }

lemma exportC4_eval :
    (export_items_from_stack reprojId stackC4 "out" "aoi.geojson" fsClip).1 =
      [fO0, fO1, fC2] := rfl

theorem exporter_nodata_C3_witness : fC2.nodata = some 0 ∧ 0 = 0 :=
  exporter_nodata_C3 reprojId stackC4 "out" "aoi.geojson" fsClip gdfClip featClip []
    fC2 (5, 5) 0 rfl rfl (by rw [exportC4_eval]; simp) (by decide) (by decide)

theorem exporter_filename_C4_witness :
    fC2.path = osPathJoin "out"
      ("io_land_cover_" ++ (padZeros 4 (2021 : Int).toNat ++ padZeros 2 6 ++ padZeros 2 15)
        ++ "_" ++ Nat.repr 2 ++ ".tif") ∧
    fC2.path = "out/io_land_cover_20210615_2.tif" :=
  ⟨exporter_filename_C4 reprojId stackC4 "out" "aoi.geojson" fsClip 2 sC2 fC2 2021 6 15
      (by decide) (by rw [exportC4_eval]; rfl) (by decide),
   rfl⟩

lemma processSlice_fs_congr (reproject : GeoFeature → Int → GeoFeature)
    (fs1 fs2 : FileSystem) (aoi_path output_dir : String) (epsg : Int)
    (h : fs1 aoi_path = fs2 aoi_path) :
    ∀ (i : Nat) (sl : Slice),
      processSlice reproject fs1 aoi_path output_dir epsg i sl =
      processSlice reproject fs2 aoi_path output_dir epsg i sl := by
  intro i sl
  unfold processSlice
  rw [h]

lemma exportGo_congr (reproject : GeoFeature → Int → GeoFeature)
    (fs1 fs2 : FileSystem) (aoi_path output_dir : String) (epsg : Int)
    (hproc : ∀ (i : Nat) (sl : Slice),
      processSlice reproject fs1 aoi_path output_dir epsg i sl =
      processSlice reproject fs2 aoi_path output_dir epsg i sl) :
    ∀ (sls : List Slice) (i0 : Nat),
      exportGo reproject fs1 aoi_path output_dir epsg i0 sls =
      exportGo reproject fs2 aoi_path output_dir epsg i0 sls := by
  intro sls
  induction sls with
  | nil => intro i0; rfl
  | cons s rest ih =>
    intro i0
    unfold exportGo
    rw [hproc i0 s, ih (i0 + 1)]

/-- C6: the Exporter is a deterministic function of the raster cube, the
output directory and the AOI file content: two runs over file systems that
agree on the AOI file produce identical output files. -/
theorem exporter_deterministic_C6 (reproject : GeoFeature → Int → GeoFeature)
    (stack : Stack) (output_dir aoi_path : String) (fs1 fs2 : FileSystem)
    (h : fs1 aoi_path = fs2 aoi_path) :
    export_items_from_stack reproject stack output_dir aoi_path fs1 =
    export_items_from_stack reproject stack output_dir aoi_path fs2 := by
  unfold export_items_from_stack
  exact exportGo_congr reproject fs1 fs2 aoi_path output_dir stack.epsg
    (processSlice_fs_congr reproject fs1 fs2 aoi_path output_dir stack.epsg h)
    stack.slices 0

def fsClipElsewhere : FileSystem :=
  fun p => if p = "aoi.geojson" then some gdfClip else some gdfW

theorem exporter_deterministic_C6_witness :
    export_items_from_stack reprojId stackC4 "out" "aoi.geojson" fsClip =
    export_items_from_stack reprojId stackC4 "out" "aoi.geojson" fsClipElsewhere :=
  exporter_deterministic_C6 reprojId stackC4 "out" "aoi.geojson" fsClip fsClipElsewhere rfl

lemma processSlice_head_congr (reproject : GeoFeature → Int → GeoFeature)
    (fs1 fs2 : FileSystem) (aoi_path output_dir : String) (epsg : Int)
    (gdf1 gdf2 : GeoDataFrame) (feat : GeoFeature) (rest1 rest2 : List GeoFeature)
    (h1 : fs1 aoi_path = some gdf1) (h2 : fs2 aoi_path = some gdf2)
    (hg1 : gdf1.features = feat :: rest1) (hg2 : gdf2.features = feat :: rest2) :
    ∀ (i : Nat) (sl : Slice),
      processSlice reproject fs1 aoi_path output_dir epsg i sl =
      processSlice reproject fs2 aoi_path output_dir epsg i sl := by
  intro i sl
  unfold processSlice
  rw [h1, h2]
  simp only [hg1, hg2, List.map_cons]

/-- C10: the Exporter clips against only the first feature of the re-read
AOI file; all later features are ignored, so two AOI files sharing the
first feature produce identical exports. -/
theorem exporter_first_feature_C10 (reproject : GeoFeature → Int → GeoFeature)
    (stack : Stack) (output_dir aoi_path : String) (fs1 fs2 : FileSystem)
    (gdf1 gdf2 : GeoDataFrame) (feat : GeoFeature) (rest1 rest2 : List GeoFeature)
    (h1 : fs1 aoi_path = some gdf1) (h2 : fs2 aoi_path = some gdf2)
    (hg1 : gdf1.features = feat :: rest1) (hg2 : gdf2.features = feat :: rest2) :
    export_items_from_stack reproject stack output_dir aoi_path fs1 =
    export_items_from_stack reproject stack output_dir aoi_path fs2 := by
  unfold export_items_from_stack
  exact exportGo_congr reproject fs1 fs2 aoi_path output_dir stack.epsg
    (processSlice_head_congr reproject fs1 fs2 aoi_path output_dir stack.epsg
      gdf1 gdf2 feat rest1 rest2 h1 h2 hg1 hg2)
    stack.slices 0

def gdfClipTwoFeatures : GeoDataFrame := { features := [featClip, featW] }

def fsClipTwoFeatures : FileSystem :=
  fun p => if p = "aoi.geojson" then some gdfClipTwoFeatures else none

theorem exporter_first_feature_C10_witness :
    export_items_from_stack reprojId stackC4 "out" "aoi.geojson" fsClipTwoFeatures =
    export_items_from_stack reprojId stackC4 "out" "aoi.geojson" fsClip :=
  exporter_first_feature_C10 reprojId stackC4 "out" "aoi.geojson"
    fsClipTwoFeatures fsClip gdfClipTwoFeatures gdfClip featClip [featW] []
    rfl rfl rfl rfl

lemma exportGo_abort (reproject : GeoFeature → Int → GeoFeature) (fs : FileSystem)
    (aoi_path output_dir : String) (epsg : Int) (w : Nat → OutFile) (e : PyError) :
    ∀ (sls : List Slice) (i0 i : Nat) (sli : Slice),
      sls[i]? = some sli →
      (∀ (j : Nat) (sl : Slice), j < i → sls[j]? = some sl →
        processSlice reproject fs aoi_path output_dir epsg (i0 + j) sl
          = Except.ok (w (i0 + j))) →
      processSlice reproject fs aoi_path output_dir epsg (i0 + i) sli = Except.error e →
      exportGo reproject fs aoi_path output_dir epsg i0 sls =
        ((List.range i).map (fun j => w (i0 + j)), some e) := by
  intro sls
  induction sls with
  | nil =>
    intro i0 i sli hsl _ _
    simp at hsl
  | cons s rest ih =>
    intro i0 i sli hsl hprev hfail
    cases i with
    | zero =>
      simp only [List.getElem?_cons_zero, Option.some.injEq] at hsl
      subst hsl
      rw [Nat.add_zero] at hfail
      unfold exportGo
      rw [hfail]
      simp
    | succ k =>
      have h0 : processSlice reproject fs aoi_path output_dir epsg i0 s = Except.ok (w i0) := by
        have := hprev 0 s (Nat.succ_pos k) (by simp)
        simpa using this
      have hrest := ih (i0 + 1) k sli (by simpa using hsl)
        (fun j sl hj hsl2 => by
          have hp := hprev (j + 1) sl (Nat.succ_lt_succ hj) (by simpa using hsl2)
          have harith : i0 + (j + 1) = i0 + 1 + j := by omega
          rw [harith] at hp
          exact hp)
        (by
          have harith : i0 + (k + 1) = i0 + 1 + k := by omega
          rw [harith] at hfail
          exact hfail)
      have hr : (List.range (k + 1)).map (fun j => w (i0 + j))
          = w i0 :: (List.range k).map (fun j => w (i0 + 1 + j)) := by
        rw [List.range_succ_eq_map, List.map_cons, List.map_map]
        have hfun : ((fun j => w (i0 + j)) ∘ Nat.succ) = (fun j => w (i0 + 1 + j)) := by
          funext j
          simp only [Function.comp]
          congr 1
          omega
        rw [hfun, Nat.add_zero]
      unfold exportGo
      rw [h0, hrest, hr]

/-- C7: if processing the time slice at index i raises, the export run
aborts there: the result is exactly the files written for slices 0..i-1
(left as they are, no rollback) together with the exception, and no file
for any later slice is written. -/
theorem exporter_abort_C7 (reproject : GeoFeature → Int → GeoFeature) (stack : Stack)
    (output_dir aoi_path : String) (fs : FileSystem)
    (i : Nat) (sli : Slice) (e : PyError) (w : Nat → OutFile)
    (hsl : stack.slices[i]? = some sli)
    (hprev : ∀ (j : Nat) (sl : Slice), j < i → stack.slices[j]? = some sl →
      processSlice reproject fs aoi_path output_dir stack.epsg j sl = Except.ok (w j))
    (hfail : processSlice reproject fs aoi_path output_dir stack.epsg i sli
      = Except.error e) :
    export_items_from_stack reproject stack output_dir aoi_path fs =
      ((List.range i).map w, some e) := by
  unfold export_items_from_stack
  have habort := exportGo_abort reproject fs aoi_path output_dir stack.epsg w e
    stack.slices 0 i sli hsl
    (fun j sl hj hsl2 => by simpa using hprev j sl hj hsl2)
    (by simpa using hfail)
  rw [habort]
  congr 1
  apply List.map_congr_left
  intro j _
  simp

def sBad : Slice := { time := 0, data := [] }

def stackC7 : Stack := { epsg := 32633, slices := [sC0, sBad] }

theorem exporter_abort_C7_witness :
    export_items_from_stack reprojId stackC7 "out" "aoi.geojson" fsClip =
      ([fO0], some PyError.noDataInBounds) := by
  have h := exporter_abort_C7 reprojId stackC7 "out" "aoi.geojson" fsClip 1 sBad
    PyError.noDataInBounds (fun _ => fO0)
    (by decide)
    (fun j sl hj hsl2 => by
      have hj0 : j = 0 := by omega
      subst hj0
      simp only [stackC7, List.getElem?_cons_zero, Option.some.injEq] at hsl2
      subst hsl2
      rfl)
    rfl
  simpa using h

/-! ## Stack builder claims -/

lemma stack_items_ok_axis (items : List Item) (epsg_code : Option String)
    (bbox : Option (ℚ × ℚ × ℚ × ℚ)) (st : Stack)
    (h : stack_items items epsg_code bbox = Except.ok st) :
    List.Perm (timeAxis st) (items.map naiveTime) ∧
    List.Sorted (· ≤ ·) (timeAxis st) := by
  cases epsg_code with
  | none => exact absurd h (by simp [stack_items])
  | some code =>
    have hdef : stack_items items (some code) bbox =
        match epsgIntOfCode code with
        | none => Except.error PyError.valueError
        | some epsg_int =>
          Except.ok { epsg := epsg_int,
                      slices := List.insertionSort sliceLE (items.map (fun item =>
                        { time := item.properties.startDatetime.tzConvertNone,
                          data := item.data : Slice })) } := rfl
    rw [hdef] at h
    cases hcode : epsgIntOfCode code with
    | none =>
      rw [hcode] at h
      exact absurd h (by simp)
    | some epsg_int =>
      rw [hcode] at h
      injection h with h
      subst h
      constructor
      · have hperm := (List.perm_insertionSort sliceLE
          (items.map (fun item =>
            { time := item.properties.startDatetime.tzConvertNone,
              data := item.data : Slice }))).map Slice.time
        simpa [timeAxis, naiveTime, List.map_map, Function.comp] using hperm
      · have hs := List.sorted_insertionSort sliceLE
          (items.map (fun item =>
            { time := item.properties.startDatetime.tzConvertNone,
              data := item.data : Slice }))
        exact List.Pairwise.map Slice.time (fun a b hab => hab) hs

/-- C2 (amended): the time axis of the cube built by the Stack Builder is
populated from the acquisition start timestamp of each item made
timezone-naive, is sorted in non-decreasing order, is independent of the
order of the input items, and is strictly ascending whenever the naive
timestamps are pairwise distinct; items with duplicate timestamps pass the
CRS Validator and yield repeated (non-strict) time values. -/
theorem stack_time_axis_C2 (items items2 : List Item) (epsg_code : Option String)
    (bbox bbox2 : Option (ℚ × ℚ × ℚ × ℚ)) (st st2 : Stack)
    (h1 : stack_items items epsg_code bbox = Except.ok st)
    (h2 : stack_items items2 epsg_code bbox2 = Except.ok st2)
    (hperm : List.Perm items items2) :
    List.Perm (timeAxis st) (items.map naiveTime) ∧
    List.Sorted (· ≤ ·) (timeAxis st) ∧
    ((items.map naiveTime).Nodup → List.Sorted (· < ·) (timeAxis st)) ∧
    timeAxis st2 = timeAxis st := by
  obtain ⟨hperm1, hsort1⟩ := stack_items_ok_axis items epsg_code bbox st h1
  obtain ⟨hperm2, hsort2⟩ := stack_items_ok_axis items2 epsg_code bbox2 st2 h2
  refine ⟨hperm1, hsort1, ?_, ?_⟩
  · intro hnd
    exact List.Sorted.lt_of_le hsort1 (hperm1.nodup_iff.mpr hnd)
  · have haxes : List.Perm (timeAxis st2) (timeAxis st) :=
      (hperm2.trans (hperm.map naiveTime).symm).trans hperm1.symm
    exact List.eq_of_perm_of_sorted haxes hsort2 hsort1

def itemDup : Item :=
  { properties := { projCode := some "EPSG:32633",
                    startDatetime := { utcMinutes := 5, tzOffsetMinutes := 0 } },
    data := [] }

def itemsDup : List Item := [itemDup, itemDup]

def stackDup : Stack :=
  { epsg := 32633, slices := [{ time := 5, data := [] }, { time := 5, data := [] }] }

/-- C2 counterexample: two items with the same CRS identifier and the
same acquisition start timestamp are accepted by the CRS Validator, yet
the resulting time axis [5, 5] is not strictly ascending. -/
theorem stack_time_axis_C2_counterexample :
    check_item_crs itemsDup = Except.ok (some "EPSG:32633") ∧
    stack_items itemsDup (some "EPSG:32633") none = Except.ok stackDup ∧
    ¬ List.Sorted (· < ·) (timeAxis stackDup) := by
  refine ⟨rfl, rfl, ?_⟩
  intro hs
  have h5 : (5 : Int) < 5 := List.rel_of_sorted_cons hs 5 (by simp [timeAxis, stackDup])
  exact absurd h5 (by omega)

def itemT3 : Item :=
  { properties := { projCode := some "EPSG:32633",
                    startDatetime := { utcMinutes := 3, tzOffsetMinutes := 0 } },
    data := [] }

def itemT7 : Item :=
  { properties := { projCode := some "EPSG:32633",
                    startDatetime := { utcMinutes := 7, tzOffsetMinutes := 0 } },
    data := [] }

def stW : Stack :=
  { epsg := 32633, slices := [{ time := 3, data := [] }, { time := 7, data := [] }] }

theorem stack_time_axis_C2_witness :
    List.Perm (timeAxis stW) ([itemT7, itemT3].map naiveTime) ∧
    List.Sorted (· ≤ ·) (timeAxis stW) ∧
    (([itemT7, itemT3].map naiveTime).Nodup → List.Sorted (· < ·) (timeAxis stW)) ∧
    timeAxis stW = timeAxis stW :=
  stack_time_axis_C2 [itemT7, itemT3] [itemT3, itemT7] (some "EPSG:32633") none none
    stW stW rfl rfl (by decide)
